import Mathlib

/-!
Shallow embedding of the gold-dashboard data-update pipeline
(`scripts/update-data.js`): the four source-update tasks
(`updateGoldPrice`, `updateFedData`, `updateDollarIndex`,
`updateGeopoliticalEvents`), the `formatDate` helper, and the `main`
orchestrator.  Numbers are modelled as exact rationals: `parseFloat` of a
numeric provider string becomes a `ℚ`, `Math.round` becomes `jsRound`, and
`Number.toFixed(n)` (which the script uses only to fix the printed
precision of a numeric value) is modelled by rounding to `n` decimal
places (`roundTo1`, `roundTo2`).  A task that throws inside its
`try`/`catch` and returns `null` is modelled as returning `none`.
-/

/-- JS `Math.round`: round half toward positive infinity. -/
def jsRound (q : ℚ) : Int := Int.floor (q + 1/2)

/-- JS `x.toFixed(1)`, as the rounded numeric value: nearest tenth, ties toward positive infinity. -/
def roundTo1 (q : ℚ) : ℚ := (Int.floor (q * 10 + 1/2) : ℚ) / 10

/-- JS `x.toFixed(2)`, as the rounded numeric value: nearest hundredth, ties toward positive infinity. -/
def roundTo2 (q : ℚ) : ℚ := (Int.floor (q * 100 + 1/2) : ℚ) / 100

/-- The month-name table of `formatDate`. -/
def monthNames : List String :=
  ["Jan", "Feb", "Mar", "Apr", "May", "Jun", "Jul", "Aug", "Sep", "Oct", "Nov", "Dec"]

/-- Decimal digits to a natural number. -/
def digitsToNat (l : List Char) : Nat := l.foldl (fun a c => a * 10 + (c.toNat - 48)) 0

/-- `formatDate` of `update-data.js`.  The script builds a JS `Date` from the
provider string and renders `months[getMonth()] getDate(), getFullYear()`;
all provider date strings are ISO `YYYY-MM-DD` with an optional time suffix
and the workflow runs in UTC, so the calendar fields are the literal digit
groups of the string (the time-of-day part, when present, is discarded).
An out-of-range month index yields the string "undefined", as JS
interpolation of `months[bad]` does. -/
def formatDate (s : String) : String :=
  let cs := s.toList
  let y := digitsToNat (cs.take 4)
  let m := digitsToNat ((cs.drop 5).take 2)
  let d := digitsToNat ((cs.drop 8).take 2)
  monthNames.getD (m - 1) "undefined" ++ " " ++ toString d ++ ", " ++ toString y

/-- Does `pat` occur at the head of `l`? -/
def matchesAt : List Char → List Char → Bool
  | [], _ => true
  | _ :: _, [] => false
  | p :: ps, c :: cs => p == c && matchesAt ps cs

/-- Does `pat` occur anywhere inside `l` (substring occurrence)? -/
def occursIn (pat : List Char) : List Char → Bool
  | [] => matchesAt pat []
  | c :: cs => matchesAt pat (c :: cs) || occursIn pat cs

/-- `text.match(/p1|p2|.../)` for a plain-word alternation: some alternative
occurs as a substring of `text`. -/
def containsAny (text : String) (pats : List String) : Bool :=
  pats.any (fun p => occursIn p.toList text.toList)

/-- JS `String.prototype.toLowerCase`, character by character (the classifier
texts are ASCII, where JS and `Char.toLower` agree). -/
def lowerText (s : String) : String := String.mk (s.toList.map Char.toLower)

/-- Follows the spec words for the date-format contract: a string of the
shape `"<3-letter month> <day>, <4-digit year>"` with a month name from the
table and all-digit day and year fields. -/
def isFormattedDate (s : String) : Bool :=
  match s.toList with
  | m1 :: m2 :: m3 :: ' ' :: rest =>
    monthNames.contains (String.mk [m1, m2, m3]) &&
    (let day := rest.takeWhile (fun c => c ≠ ',')
     let rem := rest.dropWhile (fun c => c ≠ ',')
     (!day.isEmpty && day.all Char.isDigit) &&
     (match rem with
      | ',' :: ' ' :: yr => (yr.length == 4) && yr.all Char.isDigit
      | _ => false))
  | _ => false

/-- Outcome of one HTTP fetch as the script distinguishes them: a thrown
transport error, a non-OK HTTP status, a well-formed body carrying an
explicit error payload, or a parsed payload. -/
inductive ApiResult (α : Type) where
  | transportError : ApiResult α
  | httpError (status : Nat) : ApiResult α
  | apiError (message : String) : ApiResult α
  | ok (value : α) : ApiResult α
  deriving Repr

/-- Any of the three failure modes. -/
def ApiResult.failed : ApiResult α → Bool
  | .ok _ => false
  | _ => true

/-- One bar of a Twelve Data `time_series` response (`datetime`, `close`). -/
structure Bar where
  datetime : String
  close : ℚ
  deriving Repr, DecidableEq

/-- One normalized price-history point. -/
structure PricePoint where
  date : String
  price : Int
  deriving Repr, DecidableEq

/-- The normalized gold-price record set (`gold-price.json`, sans `lastUpdated`). -/
structure GoldData where
  source : String
  currentPrice : ℚ
  history : List PricePoint
  deriving Repr, DecidableEq

/-- Primary branch of `updateGoldPrice` (Twelve Data): on a parsed payload,
`currentPrice = parseFloat(values[0].close)`,
`history = values.slice(0, 180).reverse()` with rounded prices and formatted
dates.  An empty `values` makes `data.values[0].close` throw, which the
`catch` turns into the fallback path, so it yields `none` here. -/
def goldPrimary : ApiResult (List Bar) → Option GoldData
  | .ok values =>
    match values with
    | [] => none
    | v :: _ =>
      some { source := "Twelve Data API"
             currentPrice := v.close
             history := (values.take 180).reverse.map
               (fun d => { date := formatDate d.datetime, price := jsRound d.close }) }
  | _ => none

/-- Fallback branch of `updateGoldPrice` (Alpha Vantage FX_DAILY): history
from `Object.entries(timeSeries).slice(0, 180).reverse()`, then
`currentPrice = history[history.length - 1].price`.  On an empty series that
index dereferences `undefined` and throws; the outer `catch` returns `null`,
modelled as `none`. -/
def goldFallback : ApiResult (List (String × ℚ)) → Option GoldData
  | .ok entries =>
    let history := (entries.take 180).reverse.map
      (fun e => { date := formatDate e.1, price := jsRound e.2 : PricePoint })
    history.getLast?.map
      (fun last => { source := "Alpha Vantage API (fallback)"
                     currentPrice := (last.price : ℚ)
                     history := history })
  | _ => none

/-- `updateGoldPrice`: try Twelve Data, fall back to Alpha Vantage on any
failure, return `null` (`none`) if both fail. -/
def updateGoldPrice (p : ApiResult (List Bar)) (f : ApiResult (List (String × ℚ))) :
    Option GoldData :=
  match goldPrimary p with
  | some g => some g
  | none => goldFallback f

/-- One FRED observation: the `date` string and the raw `value`, where
`none` encodes the provider's missing-data sentinel `"."` and `some q` a
numeric value string (its `parseFloat`). -/
structure FredObs where
  date : String
  value : Option ℚ
  deriving Repr, DecidableEq

/-- One combined fed-policy point; `none` fields model JS `null`. -/
structure FedPoint where
  date : String
  fedRate : Option ℚ
  realYield : Option ℚ
  deriving Repr, DecidableEq

/-- A parsed FRED response: whether `error_message` is present, and the
`observations` array (newest-first, `sort_order=desc`). -/
structure FredResp where
  error : Bool
  observations : List FredObs
  deriving Repr

/-- The normalized fed-policy record set (`fed-policy.json`, sans `lastUpdated`). -/
structure FedData where
  source : String
  currentFedRate : Option ℚ
  currentRealYield : Option ℚ
  data : List FedPoint
  deriving Repr, DecidableEq

/-- The real-yield array as the map callback of `updateFedData` sees it at
iteration `idx`: the callback calls
`realYieldData.observations.reverse()` anew on each iteration, and
`Array.prototype.reverse` mutates in place, so after the `idx`-th
iteration the array has been reversed `idx + 1` times — it is in reversed
(chronological) order exactly when `idx` is even, and back in the original
newest-first order when `idx` is odd. -/
def realYieldArrayAt (ry : List FredObs) (idx : Nat) : List FredObs :=
  if idx % 2 = 0 then ry.reverse else ry

/-- The object built by the map callback of `updateFedData` at index `idx`:
`fedRate` from the fed-funds observation unless it is the sentinel,
`realYield` from `realYieldData.observations.reverse()[idx]` unless that
element is absent or the sentinel. -/
def mkFedPoint (ry : List FredObs) (idx : Nat) (obs : FredObs) : FedPoint :=
  { date := formatDate obs.date
    fedRate := obs.value.map roundTo2
    realYield :=
      match (realYieldArrayAt ry idx).get? idx with
      | some r => r.value.map roundTo2
      | none => none }

/-- `dffData.observations.reverse().map((obs, idx) => ...)`, written as
index-carrying recursion over the already-reversed fed-funds list. -/
def combineAux (ry : List FredObs) : Nat → List FredObs → List FedPoint
  | _, [] => []
  | idx, obs :: rest => mkFedPoint ry idx obs :: combineAux ry (idx + 1) rest

/-- The `combinedData` array of `updateFedData`: map over the reversed
fed-funds observations, then `filter(d => d.fedRate && d.realYield)`. -/
def combineFed (dff ry : List FredObs) : List FedPoint :=
  (combineAux ry 0 dff.reverse).filter (fun d => d.fedRate.isSome && d.realYield.isSome)

/-- Follows the claim words (not the code): pair the two series by matching
index after reversing both to chronological order, then drop exactly the
pairs where either side is the missing-data sentinel. -/
def claimCombineFed (dff ry : List FredObs) : List FedPoint :=
  ((dff.reverse.zip ry.reverse).map
    (fun p => { date := formatDate p.1.date
                fedRate := p.1.value.map roundTo2
                realYield := p.2.value.map roundTo2 : FedPoint })).filter
    (fun d => d.fedRate.isSome && d.realYield.isSome)

/-- `updateFedData`: two FRED fetches; throw if either carries
`error_message`; combine and filter; `currentFedRate`/`currentRealYield`
from `combinedData[combinedData.length - 1]` (a throw on an empty array,
caught into `null`); keep `combinedData.slice(-180)`. -/
def updateFedData (dff ry : FredResp) : Option FedData :=
  if dff.error || ry.error then none
  else
    let combined := combineFed dff.observations ry.observations
    combined.getLast?.map
      (fun last => { source := "Federal Reserve Economic Data (FRED)"
                     currentFedRate := last.fedRate
                     currentRealYield := last.realYield
                     data := combined.drop (combined.length - 180) })

/-- One normalized dollar-index point; `dxy` is the `toFixed(1)`-rounded value. -/
structure DxyPoint where
  date : String
  dxy : ℚ
  deriving Repr, DecidableEq

/-- The normalized dollar-index record set (`dollar-index.json`, sans `lastUpdated`). -/
structure DxyData where
  source : String
  currentDXY : ℚ
  data : List DxyPoint
  deriving Repr, DecidableEq

/-- Primary branch of `updateDollarIndex` (Twelve Data `DXY`): same shape
as the gold primary, with `toFixed(1)` values. -/
def dxyPrimary : ApiResult (List Bar) → Option DxyData
  | .ok values =>
    match values with
    | [] => none
    | v :: _ =>
      some { source := "Twelve Data API"
             currentDXY := roundTo1 v.close
             data := (values.take 180).reverse.map
               (fun d => { date := formatDate d.datetime, dxy := roundTo1 d.close }) }
  | _ => none

/-- `parseFloat(pairData[pair][i].close)` for a pair series. -/
def closeAt (l : List Bar) (i : Nat) : ℚ := ((l.get? i).map Bar.close).getD 0

/-- `Math.min(...Object.values(pairData).map(v => v.length))` when all four
pairs returned data. -/
def dxyProxyLen (e j g c : List Bar) : Nat :=
  min (min e.length j.length) (min g.length c.length)

/-- The `weightedSum` of the proxy loop at aligned position `i`:
base 100 plus the fixed weights EUR/USD `-0.576`, USD/JPY `0.136`,
GBP/USD `-0.119`, USD/CAD `0.091` times the respective close. -/
def dxyWeightedSum (e j g c : List Bar) (i : Nat) : ℚ :=
  100 + (-(576/1000)) * closeAt e i + (136/1000) * closeAt j i
      + (-(119/1000)) * closeAt g i + (91/1000) * closeAt c i

/-- The `dxyProxy` values (newest-first, before the final `reverse`). -/
def dxyProxyVals (e j g c : List Bar) : List ℚ :=
  (List.range (dxyProxyLen e j g c)).map (fun i => dxyWeightedSum e j g c i)

/-- Fallback branch of `updateDollarIndex`: four currency-pair fetches,
each stored only `if (json.values)` (a `none` argument models an absent
`values` field).  A missing pair makes the loop (or `Math.min` of nothing
followed by indexing) dereference `undefined` and throw; an empty common
window makes `dxyProxy[0].dxy` throw; both are caught into `null`
(`none`).  Otherwise: dates from the EUR/USD series, `toFixed(1)` values,
`currentDXY` from the newest proxy point, data reversed to chronological
order. -/
def dxyFallback (e j g c : Option (List Bar)) : Option DxyData :=
  match e, j, g, c with
  | some ev, some jv, some gv, some cv =>
    let proxy := (List.range (dxyProxyLen ev jv gv cv)).map
      (fun i => { date := formatDate (((ev.get? i).map Bar.datetime).getD "")
                  dxy := roundTo1 (dxyWeightedSum ev jv gv cv i) : DxyPoint })
    proxy.head?.map
      (fun p => { source := "Calculated DXY Proxy"
                  currentDXY := p.dxy
                  data := proxy.reverse })
  | _, _, _, _ => none

/-- `updateDollarIndex`: try the direct DXY feed, else the four-pair proxy. -/
def updateDollarIndex (p : ApiResult (List Bar)) (e j g c : Option (List Bar)) :
    Option DxyData :=
  match dxyPrimary p with
  | some d => some d
  | none => dxyFallback e j g c

/-- Event severity. -/
inductive Severity where
  | low | medium | high
  deriving Repr, DecidableEq

/-- Event impact. -/
inductive Impact where
  | positive | neutral | negative
  deriving Repr, DecidableEq

/-- The high-severity alternation `/war|crisis|attack|collapse|crash/`. -/
def highKeywords : List String := ["war", "crisis", "attack", "collapse", "crash"]

/-- The medium-severity alternation `/tension|concern|risk|warning|threat/`. -/
def mediumKeywords : List String := ["tension", "concern", "risk", "warning", "threat"]

/-- The positive-impact regex `/gold (rises|rally|surge|gains|higher)/` as substrings. -/
def positiveKeywords : List String :=
  ["gold rises", "gold rally", "gold surge", "gold gains", "gold higher"]

/-- The negative-impact regex `/gold (falls|decline|drop|lower)/` as substrings. -/
def negativeKeywords : List String :=
  ["gold falls", "gold decline", "gold drop", "gold lower"]

/-- Severity of one article text: high keywords first, then medium, else low. -/
def classifySeverity (text : String) : Severity :=
  if containsAny text highKeywords then .high
  else if containsAny text mediumKeywords then .medium
  else .low

/-- Impact of one article text, given its severity: gold-direction keywords
first; with no directional match, medium/high severity defaults to
positive and low severity stays neutral. -/
def classifyImpact (text : String) (sev : Severity) : Impact :=
  if containsAny text positiveKeywords then .positive
  else if containsAny text negativeKeywords then .negative
  else if sev == .high || sev == .medium then .positive
  else .neutral

/-- Severity and impact of one lowercased article text. -/
def classifyText (text : String) : Severity × Impact :=
  (classifySeverity text, classifyImpact text (classifySeverity text))

/-- One NewsAPI article. -/
structure Article where
  title : String
  description : String
  publishedAt : String
  url : String
  deriving Repr, DecidableEq

/-- One persisted geopolitical event. -/
structure GeoEvent where
  date : String
  event : String
  severity : Severity
  impact : Impact
  url : String
  deriving Repr, DecidableEq

/-- A parsed NewsAPI response: whether `status === 'error'`, and the articles. -/
structure NewsResp where
  error : Bool
  articles : List Article
  deriving Repr

/-- The normalized events record set (`geopolitical-events.json`, sans `lastUpdated`). -/
structure GeoData where
  source : String
  events : List GeoEvent
  deriving Repr, DecidableEq

/-- The map callback of `updateGeopoliticalEvents`: classify the lowercased
`title + ' ' + description`, date from `publishedAt.split('T')[0]`,
headline truncated to 120 characters. -/
def mkGeoEvent (a : Article) : GeoEvent :=
  let text := lowerText (a.title ++ " " ++ a.description)
  { date := String.mk (a.publishedAt.toList.takeWhile (fun c => c ≠ 'T'))
    event := String.mk (a.title.toList.take 120)
    severity := classifySeverity text
    impact := classifyImpact text (classifySeverity text)
    url := a.url }

/-- `updateGeopoliticalEvents`: with a falsy `NEWS_API_KEY` (unset, modelled
`none`, or the empty string) the task returns `null` before issuing any
request; otherwise an error-status response throws into `null`, and a good
response yields the first 15 classified articles in provider order. -/
def updateGeopoliticalEvents (key : Option String) (resp : NewsResp) : Option GeoData :=
  if (key.getD "").isEmpty then none
  else if resp.error then none
  else some { source := "NewsAPI", events := (resp.articles.map mkGeoEvent).take 15 }

/-- Everything the four tasks of one run consume from the outside world. -/
structure RunInputs where
  goldPrimary : ApiResult (List Bar)
  goldFallback : ApiResult (List (String × ℚ))
  dff : FredResp
  realYield : FredResp
  dxyPrimaryResp : ApiResult (List Bar)
  eurusd : Option (List Bar)
  usdjpy : Option (List Bar)
  gbpusd : Option (List Bar)
  usdcad : Option (List Bar)
  newsKey : Option String
  news : NewsResp

/-- The `results` object of `main`. -/
structure RunResults where
  goldPrice : Option GoldData
  fedPolicy : Option FedData
  dollarIndex : Option DxyData
  geopolitical : Option GeoData
  deriving Repr, DecidableEq

/-- `main`: run the four updates sequentially and collect their outcomes. -/
def runMain (inp : RunInputs) : RunResults :=
  { goldPrice := updateGoldPrice inp.goldPrimary inp.goldFallback
    fedPolicy := updateFedData inp.dff inp.realYield
    dollarIndex := updateDollarIndex inp.dxyPrimaryResp inp.eurusd inp.usdjpy inp.gbpusd inp.usdcad
    geopolitical := updateGeopoliticalEvents inp.newsKey inp.news }

/-- `Object.values(results).filter(v => v).length`. -/
def successCount (r : RunResults) : Nat :=
  [r.goldPrice.isSome, r.fedPolicy.isSome, r.dollarIndex.isSome, r.geopolitical.isSome].count true

/-- The process exit code of `main`: `process.exit(1)` when no update
succeeded, otherwise a normal return (exit code 0). -/
def exitCode (r : RunResults) : Nat := if successCount r = 0 then 1 else 0

/-- The run-level success the script expresses through its exit code:
at least one source produced a record set. -/
def overallSuccess (r : RunResults) : Bool := decide (0 < successCount r)

/-! Concrete inputs used by the closed evaluations and witnesses below. -/

/-- A two-day fed-funds series, newest-first, no sentinel values. -/
def dffEx : List FredObs := [⟨"2024-01-02", some 1⟩, ⟨"2024-01-01", some 2⟩]

/-- The matching two-day real-yield series, newest-first. -/
def ryEx : List FredObs := [⟨"2024-01-02", some 3⟩, ⟨"2024-01-01", some 4⟩]

/-- One Twelve Data bar. -/
def barEx : Bar := ⟨"2024-01-15", 2000⟩

/-- One Alpha Vantage time-series entry. -/
def entryEx : String × ℚ := ("2024-01-15", 2000)

/-- A one-bar currency-pair series. -/
def pairEx : List Bar := [⟨"2024-01-15", 1⟩]

/-- One NewsAPI article with a full date-time `publishedAt`. -/
def articleEx : Article := ⟨"Some title", "desc", "2024-01-15T10:30:00Z", "http://example.com"⟩

/-- A FRED response whose only observation is the missing-data sentinel. -/
def fredSentinelResp : FredResp := ⟨false, [⟨"2024-01-01", none⟩]⟩

/-- Run inputs where only the gold primary feed succeeds. -/
def inpOneSuccess : RunInputs :=
  { goldPrimary := .ok [barEx]
    goldFallback := .transportError
    dff := ⟨true, []⟩
    realYield := ⟨true, []⟩
    dxyPrimaryResp := .transportError
    eurusd := none
    usdjpy := none
    gbpusd := none
    usdcad := none
    newsKey := none
    news := ⟨false, []⟩ }

/-- Run inputs whose price clients deliver the degenerate payloads of the
containment claim: primary transport failure, fallback with an empty time
series, and macro-policy responses whose every pair is incomplete. -/
def degenInputs (inp : RunInputs) : RunInputs :=
  { inp with goldPrimary := .transportError
             goldFallback := .ok []
             dff := fredSentinelResp
             realYield := fredSentinelResp }

/-! Helper lemmas shared by the claim theorems. -/

/-- A run counts zero successes exactly when all four source outcomes are `none`. -/
theorem successCount_eq_zero (r : RunResults) :
    successCount r = 0 ↔
      r.goldPrice = none ∧ r.fedPolicy = none ∧ r.dollarIndex = none ∧ r.geopolitical = none := by
  obtain ⟨g, f, d, e⟩ := r
  cases g <;> cases f <;> cases d <;> cases e <;> simp [successCount, List.count_cons]

/-- Every point produced by the `updateFedData` map carries the formatted
date of some fed-funds observation of the mapped list. -/
theorem combineAux_mem_date (ry : List FredObs) :
    ∀ (i : Nat) (l : List FredObs) (p : FedPoint), p ∈ combineAux ry i l →
      ∃ o ∈ l, p.date = formatDate o.date := by
  intro i l
  induction l generalizing i with
  | nil =>
    intro p hp
    simp [combineAux] at hp
  | cons a t ih =>
    intro p hp
    simp only [combineAux, List.mem_cons] at hp
    rcases hp with rfl | hp
    · exact ⟨a, List.mem_cons_self a t, rfl⟩
    · obtain ⟨o, ho, hd⟩ := ih (i + 1) p hp
      exact ⟨o, List.mem_cons_of_mem a ho, hd⟩

/-- Claim C1, settled against the code: the macro-policy combining step does
NOT pair observations by matching index after reversing both series to
chronological order.  The map callback of `updateFedData` calls
`realYieldData.observations.reverse()` anew on every iteration, and JS
`reverse` mutates in place, so odd indices read the real-yield series in its
original newest-first order.  On the two-day sentinel-free series `dffEx`
and `ryEx`, the code yields real-yield column `[4, 4]` while index-matched
chronological pairing (`claimCombineFed`, written from the claim words)
yields `[4, 3]`, and the persisted `currentRealYield` is `4` instead of the
chronologically matching `3`. -/
theorem fed_pairing_mutation_bug :
    combineFed dffEx ryEx ≠ claimCombineFed dffEx ryEx ∧
    (combineFed dffEx ryEx).map FedPoint.realYield = [some 4, some 4] ∧
    (claimCombineFed dffEx ryEx).map FedPoint.realYield = [some 4, some 3] ∧
    (updateFedData ⟨false, dffEx⟩ ⟨false, ryEx⟩).map FedData.currentRealYield = some (some 4) ∧
    combineFed dffEx ryEx =
      [⟨"Jan 1, 2024", some 2, some 4⟩, ⟨"Jan 2, 2024", some 1, some 4⟩] := by
  have h1 : roundTo2 (1 : ℚ) = 1 := by norm_num [roundTo2]
  have h2 : roundTo2 (2 : ℚ) = 2 := by norm_num [roundTo2]
  have h3 : roundTo2 (3 : ℚ) = 3 := by norm_num [roundTo2]
  have h4 : roundTo2 (4 : ℚ) = 4 := by norm_num [roundTo2]
  refine ⟨?_, ?_, ?_, ?_, ?_⟩ <;>
    (simp [combineFed, combineAux, mkFedPoint, realYieldArrayAt, claimCombineFed,
           updateFedData, dffEx, ryEx, h1, h2, h3, h4, formatDate, digitsToNat, monthNames] <;>
     decide)

/-- Claim C2: the synthetic index fallback, given four pair series with data,
produces a record whose series is aligned by position up to the shortest
common length (so exactly 180 when all four series have length 180), whose
value at each aligned position is `100 - 0.576 * eurusd + 0.136 * usdjpy -
0.119 * gbpusd + 0.091 * usdcad` (stored `toFixed(1)`-rounded), and the
fallback fails when any pair request yields no data. -/
theorem dxy_proxy_spec (ev jv gv cv : List Bar)
    (he : ev ≠ []) (hj : jv ≠ []) (hg : gv ≠ []) (hc : cv ≠ []) :
    (∃ d, dxyFallback (some ev) (some jv) (some gv) (some cv) = some d ∧
      d.source = "Calculated DXY Proxy" ∧
      d.data.length = dxyProxyLen ev jv gv cv ∧
      d.data.reverse.map DxyPoint.dxy = (dxyProxyVals ev jv gv cv).map roundTo1 ∧
      (ev.length = 180 → jv.length = 180 → gv.length = 180 → cv.length = 180 →
        d.data.length = 180)) ∧
    (dxyProxyVals ev jv gv cv).length = dxyProxyLen ev jv gv cv ∧
    (∀ i, i < dxyProxyLen ev jv gv cv →
      (dxyProxyVals ev jv gv cv).get? i =
        some (100 + (-(576/1000)) * closeAt ev i + (136/1000) * closeAt jv i
              + (-(119/1000)) * closeAt gv i + (91/1000) * closeAt cv i)) ∧
    (∀ x y z : Option (List Bar), dxyFallback none x y z = none) ∧
    (∀ x y z : Option (List Bar), dxyFallback x none y z = none) ∧
    (∀ x y z : Option (List Bar), dxyFallback x y none z = none) ∧
    (∀ x y z : Option (List Bar), dxyFallback x y z none = none) := by
  have hlen : 0 < dxyProxyLen ev jv gv cv := by
    have h1 := List.length_pos.mpr he
    have h2 := List.length_pos.mpr hj
    have h3 := List.length_pos.mpr hg
    have h4 := List.length_pos.mpr hc
    simp only [dxyProxyLen]
    omega
  have hhead : ((List.range (dxyProxyLen ev jv gv cv)).map
      (fun i => { date := formatDate (((ev.get? i).map Bar.datetime).getD "")
                  dxy := roundTo1 (dxyWeightedSum ev jv gv cv i) : DxyPoint })).head? =
      some { date := formatDate (((ev.get? 0).map Bar.datetime).getD "")
             dxy := roundTo1 (dxyWeightedSum ev jv gv cv 0) } := by
    rw [← List.get?_zero, List.get?_map, List.get?_range hlen]
    rfl
  refine ⟨?_, ?_, ?_, ?_, ?_, ?_, ?_⟩
  · refine ⟨{ source := "Calculated DXY Proxy"
              currentDXY := roundTo1 (dxyWeightedSum ev jv gv cv 0)
              data := ((List.range (dxyProxyLen ev jv gv cv)).map
                (fun i => { date := formatDate (((ev.get? i).map Bar.datetime).getD "")
                            dxy := roundTo1 (dxyWeightedSum ev jv gv cv i) : DxyPoint })).reverse },
            ?_, rfl, ?_, ?_, ?_⟩
    · simp only [dxyFallback]
      rw [hhead]
      rfl
    · simp
    · rw [List.reverse_reverse, List.map_map]
      simp [dxyProxyVals, List.map_map, Function.comp]
    · intro h1 h2 h3 h4
      simp [dxyProxyLen, h1, h2, h3, h4]
  · simp [dxyProxyVals]
  · intro i hi
    simp only [dxyProxyVals, List.get?_map, List.get?_range hi, Option.map_some']
    rfl
  · intro x y z
    rfl
  · intro x y z
    cases x <;> rfl
  · intro x y z
    cases x <;> cases y <;> rfl
  · intro x y z
    cases x <;> cases y <;> cases z <;> rfl

/-- Witness for claim C2: four one-bar pair series give a one-point proxy
record, and a missing pair gives failure. -/
theorem dxy_proxy_spec_witness :
    (dxyFallback (some pairEx) (some pairEx) (some pairEx) (some pairEx)).isSome = true ∧
    (dxyProxyVals pairEx pairEx pairEx pairEx).length = 1 ∧
    dxyFallback none none none none = none := by
  have h := dxy_proxy_spec pairEx pairEx pairEx pairEx
    (by decide) (by decide) (by decide) (by decide)
  obtain ⟨⟨d, hd, -, -, -, -⟩, hvlen, -, hn1, -, -, -⟩ := h
  refine ⟨by rw [hd]; rfl, by rw [hvlen]; decide, hn1 none none none⟩

/-- Claim C3: the run exits 0 exactly when at least one of the four sources
produced a record set and exits 1 exactly when all four failed; overall
success is false only when every source failed, and a run with exactly one
success terminates normally. -/
theorem run_exit_contract (inp : RunInputs) :
    (exitCode (runMain inp) = 0 ↔ 0 < successCount (runMain inp)) ∧
    (exitCode (runMain inp) = 1 ↔ successCount (runMain inp) = 0) ∧
    (overallSuccess (runMain inp) = false ↔
      (runMain inp).goldPrice = none ∧ (runMain inp).fedPolicy = none ∧
      (runMain inp).dollarIndex = none ∧ (runMain inp).geopolitical = none) ∧
    (successCount (runMain inp) = 1 →
      exitCode (runMain inp) = 0 ∧ overallSuccess (runMain inp) = true) := by
  have hz := successCount_eq_zero (runMain inp)
  rcases Nat.eq_zero_or_pos (successCount (runMain inp)) with h | h
  · refine ⟨?_, ?_, ?_, ?_⟩
    · simp [exitCode, h]
    · simp [exitCode, h]
    · simp [overallSuccess, h, hz.mp h]
    · intro h1
      omega
  · have hne : successCount (runMain inp) ≠ 0 := Nat.pos_iff_ne_zero.mp h
    refine ⟨?_, ?_, ?_, ?_⟩
    · simp [exitCode, hne, h]
    · simp [exitCode, hne]
    · rw [← hz]
      simp [overallSuccess, hne, h]
    · intro h1
      simp [exitCode, hne, overallSuccess, h]

/-- Witness for claim C3: a run where only the gold primary feed succeeds
counts one success, exits 0 and is an overall success. -/
theorem run_exit_contract_witness :
    successCount (runMain inpOneSuccess) = 1 ∧
    exitCode (runMain inpOneSuccess) = 0 ∧ overallSuccess (runMain inpOneSuccess) = true :=
  ⟨by decide, (run_exit_contract inpOneSuccess).2.2.2 (by decide)⟩

/-- Claim C4: a successful primary price response (newest-first values)
normalizes to current price equal to the first element's close, history
equal to the latest 180 points reversed to chronological order with length
at most 180, and every history price rounded to the nearest integer — hence
a non-negative integer whenever the closes are non-negative. -/
theorem gold_primary_normalized (values : List Bar) (hv : values ≠ [])
    (f : ApiResult (List (String × ℚ))) :
    updateGoldPrice (.ok values) f =
      some { source := "Twelve Data API"
             currentPrice := (values.head hv).close
             history := (values.take 180).reverse.map
               (fun d => { date := formatDate d.datetime, price := jsRound d.close }) } ∧
    ((values.take 180).reverse.map
      (fun d => { date := formatDate d.datetime, price := jsRound d.close : PricePoint })).length
        ≤ 180 ∧
    ((∀ b ∈ values, 0 ≤ b.close) →
      ∀ p ∈ (values.take 180).reverse.map
          (fun d => { date := formatDate d.datetime, price := jsRound d.close : PricePoint }),
        0 ≤ p.price) := by
  obtain ⟨v, vs, rfl⟩ := List.exists_cons_of_ne_nil hv
  refine ⟨?_, ?_, ?_⟩
  · simp [updateGoldPrice, goldPrimary]
  · simp [List.length_take]
  · intro hnn p hp
    simp only [List.mem_map, List.mem_reverse] at hp
    obtain ⟨b, hb, rfl⟩ := hp
    have hbv : b ∈ v :: vs := List.mem_of_mem_take hb
    have h0 : (0 : ℚ) ≤ b.close := hnn b hbv
    simp only [jsRound]
    exact Int.le_floor.mpr (by push_cast; linarith)

/-- Witness for claim C4: a one-bar primary response evaluates to the
normalized record. -/
theorem gold_primary_normalized_witness :
    updateGoldPrice (.ok [barEx]) .transportError =
      some { source := "Twelve Data API"
             currentPrice := 2000
             history := [{ date := "Jan 15, 2024", price := 2000 }] } := by
  have h := (gold_primary_normalized [barEx] (by decide) .transportError).1
  rw [h]
  have hj : jsRound 2000 = 2000 := by norm_num [jsRound]
  simp [barEx, hj]
  decide

/-- Claim C5: when the primary price client fails in any of its modes and
the fallback succeeds on a non-empty series, the persisted record's source
is the fallback label "Alpha Vantage API (fallback)", never the primary
label, and its current price equals the last series point's value. -/
theorem gold_fallback_provenance (p : ApiResult (List Bar)) (hp : p.failed = true)
    (entries : List (String × ℚ)) (he : entries ≠ []) :
    ∃ g, updateGoldPrice p (.ok entries) = some g ∧
      g.source = "Alpha Vantage API (fallback)" ∧
      g.source ≠ "Twelve Data API" ∧
      ∃ last, g.history.getLast? = some last ∧ g.currentPrice = (last.price : ℚ) := by
  have hprim : goldPrimary p = none := by
    cases p <;> simp_all [goldPrimary, ApiResult.failed]
  have hup : updateGoldPrice p (.ok entries) = goldFallback (.ok entries) := by
    simp [updateGoldPrice, hprim]
  have hlen : ((entries.take 180).reverse.map
      (fun e => { date := formatDate e.1, price := jsRound e.2 : PricePoint })).length =
        min 180 entries.length := by
    simp [List.length_take]
  have hpos : 0 < ((entries.take 180).reverse.map
      (fun e => { date := formatDate e.1, price := jsRound e.2 : PricePoint })).length := by
    rw [hlen]
    have := List.length_pos.mpr he
    omega
  cases hL : ((entries.take 180).reverse.map
      (fun e => { date := formatDate e.1, price := jsRound e.2 : PricePoint })).getLast? with
  | none =>
    exact absurd (List.getLast?_eq_none.mp hL) (List.length_pos.mp hpos)
  | some last =>
    refine ⟨{ source := "Alpha Vantage API (fallback)"
              currentPrice := (last.price : ℚ)
              history := (entries.take 180).reverse.map
                (fun e => { date := formatDate e.1, price := jsRound e.2 : PricePoint }) },
            ?_, rfl, show "Alpha Vantage API (fallback)" ≠ "Twelve Data API" by decide,
            last, ?_, rfl⟩
    · rw [hup]
      simp only [goldFallback]
      rw [hL]
      rfl
    · exact hL

/-- Witness for claim C5: a transport-failed primary with a one-entry
fallback series lands on the fallback label with current price from the
last point. -/
theorem gold_fallback_provenance_witness :
    ∃ g, updateGoldPrice .transportError (.ok [entryEx]) = some g ∧
      g.source = "Alpha Vantage API (fallback)" ∧
      g.source ≠ "Twelve Data API" ∧
      ∃ last, g.history.getLast? = some last ∧ g.currentPrice = (last.price : ℚ) :=
  gold_fallback_provenance .transportError rfl [entryEx] (by decide)

/-- Claim C6: severity is high exactly when a high keyword occurs (checked
before medium), medium exactly when no high keyword but a medium keyword
occurs, else low; impact is positive exactly when a gold-direction positive
keyword occurs or no negative keyword occurs and severity is medium or
high, negative exactly when no positive but a negative keyword occurs, and
neutral only at low severity with no directional keyword; and the three
literal example texts classify as (high, positive), (medium, positive) and
(low, negative). -/
theorem event_classification :
    (∀ t, classifySeverity t = .high ↔ containsAny t highKeywords = true) ∧
    (∀ t, classifySeverity t = .medium ↔
      (containsAny t highKeywords = false ∧ containsAny t mediumKeywords = true)) ∧
    (∀ t, classifySeverity t = .low ↔
      (containsAny t highKeywords = false ∧ containsAny t mediumKeywords = false)) ∧
    (∀ t s, classifyImpact t s = .positive ↔
      (containsAny t positiveKeywords = true ∨
       (containsAny t negativeKeywords = false ∧ (s = .high ∨ s = .medium)))) ∧
    (∀ t s, classifyImpact t s = .negative ↔
      (containsAny t positiveKeywords = false ∧ containsAny t negativeKeywords = true)) ∧
    (∀ t s, classifyImpact t s = .neutral ↔
      (containsAny t positiveKeywords = false ∧ containsAny t negativeKeywords = false ∧
       s = .low)) ∧
    classifyText (lowerText "War breaks out, gold rises") = (.high, .positive) ∧
    classifyText (lowerText "Minor tension reported") = (.medium, .positive) ∧
    classifyText (lowerText "Markets calm, gold falls slightly") = (.low, .negative) := by
  refine ⟨?_, ?_, ?_, ?_, ?_, ?_, by decide, by decide, by decide⟩
  · intro t
    by_cases h1 : containsAny t highKeywords <;>
      by_cases h2 : containsAny t mediumKeywords <;> simp [classifySeverity, h1, h2]
  · intro t
    by_cases h1 : containsAny t highKeywords <;>
      by_cases h2 : containsAny t mediumKeywords <;> simp [classifySeverity, h1, h2]
  · intro t
    by_cases h1 : containsAny t highKeywords <;>
      by_cases h2 : containsAny t mediumKeywords <;> simp [classifySeverity, h1, h2]
  · intro t s
    by_cases h1 : containsAny t positiveKeywords <;>
      by_cases h2 : containsAny t negativeKeywords <;> cases s <;>
        simp [classifyImpact, h1, h2]
  · intro t s
    by_cases h1 : containsAny t positiveKeywords <;>
      by_cases h2 : containsAny t negativeKeywords <;> cases s <;>
        simp [classifyImpact, h1, h2]
  · intro t s
    by_cases h1 : containsAny t positiveKeywords <;>
      by_cases h2 : containsAny t negativeKeywords <;> cases s <;>
        simp [classifyImpact, h1, h2]

/-- Claim C7 counterexample: a persisted event date is the ISO date part of
`publishedAt` (here "2024-01-15"), which is not in the claimed
"month-name day, year" rendering — even though `formatDate` on the same
provider string would be. -/
theorem event_date_not_month_rendered :
    (updateGeopoliticalEvents (some "key") ⟨false, [articleEx]⟩).map
      (fun g => g.events.map GeoEvent.date) = some ["2024-01-15"] ∧
    isFormattedDate "2024-01-15" = false ∧
    isFormattedDate (formatDate "2024-01-15T10:30:00Z") = true := by decide

set_option maxRecDepth 4096 in
/-- Claim C7 as amended: dates persisted by the price, macro-policy, and
index paths are rendered through `formatDate` from the provider's native
date string (discarding any time-of-day), in the
"3-letter month, day, 4-digit year" shape; event record dates are instead
the ISO date portion of `publishedAt` before the 'T' separator. -/
theorem persisted_date_rendering :
    (∀ (values : List Bar) (g : GoldData), goldPrimary (.ok values) = some g →
      g.history.map PricePoint.date =
        (values.take 180).reverse.map (fun b => formatDate b.datetime)) ∧
    (∀ (entries : List (String × ℚ)) (g : GoldData), goldFallback (.ok entries) = some g →
      g.history.map PricePoint.date =
        (entries.take 180).reverse.map (fun e => formatDate e.1)) ∧
    (∀ (dff ry : FredResp) (fd : FedData), updateFedData dff ry = some fd →
      ∀ p ∈ fd.data, ∃ o ∈ dff.observations, p.date = formatDate o.date) ∧
    (∀ (values : List Bar) (d : DxyData), dxyPrimary (.ok values) = some d →
      d.data.map DxyPoint.date =
        (values.take 180).reverse.map (fun b => formatDate b.datetime)) ∧
    (∀ (ev jv gv cv : List Bar) (d : DxyData),
      dxyFallback (some ev) (some jv) (some gv) (some cv) = some d →
      ∀ p ∈ d.data, ∃ i, p.date = formatDate (((ev.get? i).map Bar.datetime).getD "")) ∧
    (∀ (k : Option String) (resp : NewsResp) (g : GeoData),
      updateGeopoliticalEvents k resp = some g →
      ∀ e ∈ g.events, ∃ a ∈ resp.articles,
        e.date = String.mk (a.publishedAt.toList.takeWhile (fun c => c ≠ 'T'))) ∧
    isFormattedDate (formatDate "2024-01-15") = true ∧
    formatDate "2024-01-15T10:30:00Z" = "Jan 15, 2024" ∧
    formatDate "2024-01-15" = "Jan 15, 2024" := by
  refine ⟨?_, ?_, ?_, ?_, ?_, ?_, by decide, by decide, by decide⟩
  · intro values g h
    cases values with
    | nil => simp [goldPrimary] at h
    | cons v vs =>
      simp only [goldPrimary, Option.some.injEq] at h
      subst h
      rw [List.map_map]
      rfl
  · intro entries g h
    simp only [goldFallback, Option.map_eq_some'] at h
    obtain ⟨last, hl, rfl⟩ := h
    rw [List.map_map]
    rfl
  · intro dff ry fd h
    simp only [updateFedData] at h
    split at h
    · exact Option.noConfusion h
    · rw [Option.map_eq_some'] at h
      obtain ⟨last, hl, rfl⟩ := h
      intro p hp
      have hp2 := List.mem_of_mem_drop hp
      have hp3 := (List.mem_filter.mp hp2).1
      obtain ⟨o, ho, hd⟩ := combineAux_mem_date ry.observations 0 dff.observations.reverse p hp3
      exact ⟨o, List.mem_reverse.mp ho, hd⟩
  · intro values d h
    cases values with
    | nil => simp [dxyPrimary] at h
    | cons v vs =>
      simp only [dxyPrimary, Option.some.injEq] at h
      subst h
      rw [List.map_map]
      rfl
  · intro ev jv gv cv d h
    simp only [dxyFallback, Option.map_eq_some'] at h
    obtain ⟨p0, hp0, rfl⟩ := h
    intro p hp
    rw [List.mem_reverse] at hp
    obtain ⟨i, hi, rfl⟩ := List.mem_map.mp hp
    exact ⟨i, rfl⟩
  · intro k resp g h
    simp only [updateGeopoliticalEvents] at h
    split at h
    · exact Option.noConfusion h
    · split at h
      · exact Option.noConfusion h
      · rw [Option.some.injEq] at h
        subst h
        intro e he
        obtain ⟨a, ha, rfl⟩ := List.mem_map.mp (List.mem_of_mem_take he)
        exact ⟨a, ha, rfl⟩

/-- Witness for amended claim C7: the one-bar gold primary record carries
the `formatDate`-rendered date. -/
theorem persisted_date_rendering_witness :
    (goldPrimary (.ok [barEx])).map (fun g => g.history.map PricePoint.date) =
      some ["Jan 15, 2024"] := by
  cases hg : goldPrimary (.ok [barEx]) with
  | none => simp [goldPrimary] at hg
  | some g =>
    have hd := persisted_date_rendering.1 [barEx] g hg
    simp only [Option.map_some', hd]
    decide

/-- Claim C8: with no news credential the event task yields the failure
outcome without depending on any response, the other three sources' outcomes
are untouched, and the success count degrades only by not counting events. -/
theorem news_not_configured (inp : RunInputs) (n : NewsResp) :
    updateGeopoliticalEvents none n = none ∧
    (runMain { inp with newsKey := none }).geopolitical = none ∧
    runMain { inp with newsKey := none, news := n } = runMain { inp with newsKey := none } ∧
    (runMain { inp with newsKey := none }).goldPrice =
      updateGoldPrice inp.goldPrimary inp.goldFallback ∧
    (runMain { inp with newsKey := none }).fedPolicy = updateFedData inp.dff inp.realYield ∧
    (runMain { inp with newsKey := none }).dollarIndex =
      updateDollarIndex inp.dxyPrimaryResp inp.eurusd inp.usdjpy inp.gbpusd inp.usdcad ∧
    successCount (runMain { inp with newsKey := none }) =
      [(updateGoldPrice inp.goldPrimary inp.goldFallback).isSome,
       (updateFedData inp.dff inp.realYield).isSome,
       (updateDollarIndex inp.dxyPrimaryResp inp.eurusd inp.usdjpy inp.gbpusd inp.usdcad).isSome].count
        true := by
  refine ⟨rfl, rfl, rfl, rfl, rfl, rfl, ?_⟩
  simp [runMain, successCount, updateGeopoliticalEvents, List.count_cons,
        show "".isEmpty = true from rfl]

/-- Claim C9: a successful news response persists at most 15 events — the
first 15 classified articles in provider order — although up to 20 articles
are requested. -/
theorem events_capped_at_15 (k : String) (hk : k ≠ "") (arts : List Article) :
    updateGeopoliticalEvents (some k) ⟨false, arts⟩ =
      some { source := "NewsAPI", events := (arts.map mkGeoEvent).take 15 } ∧
    ((arts.map mkGeoEvent).take 15).length ≤ 15 ∧
    (15 ≤ arts.length → ((arts.map mkGeoEvent).take 15).length = 15) ∧
    (∀ i, i < 15 → ((arts.map mkGeoEvent).take 15).get? i = (arts.map mkGeoEvent).get? i) := by
  refine ⟨?_, ?_, ?_, ?_⟩
  · have hke : k.isEmpty = false := by
      rw [Bool.eq_false_iff]
      intro hc
      exact hk ((String.isEmpty_iff k).mp hc)
    simp [updateGeopoliticalEvents, hke]
  · simp [List.length_take]
  · intro h
    simp [List.length_take, List.length_map]
    omega
  · intro i hi
    exact List.get?_take hi

/-- Witness for claim C9: sixteen identical articles persist exactly 15
events. -/
theorem events_capped_at_15_witness :
    (((List.replicate 16 articleEx).map mkGeoEvent).take 15).length = 15 :=
  (events_capped_at_15 "key" (by decide) (List.replicate 16 articleEx)).2.2.1 (by simp)

/-- Claim C10: the degenerate payloads — price fallback with an empty time
series, and macro-policy responses whose every pair is incomplete — are
caught inside their own task, which returns the failure outcome, and the
other sources and the exit-code computation see only that failure. -/
theorem degenerate_payloads_contained (inp : RunInputs) :
    updateGoldPrice .transportError (.ok []) = none ∧
    updateFedData fredSentinelResp fredSentinelResp = none ∧
    runMain (degenInputs inp) =
      { goldPrice := none
        fedPolicy := none
        dollarIndex := updateDollarIndex inp.dxyPrimaryResp inp.eurusd inp.usdjpy inp.gbpusd inp.usdcad
        geopolitical := updateGeopoliticalEvents inp.newsKey inp.news } ∧
    exitCode (runMain (degenInputs inp)) =
      (if [(updateDollarIndex inp.dxyPrimaryResp inp.eurusd inp.usdjpy inp.gbpusd inp.usdcad).isSome,
           (updateGeopoliticalEvents inp.newsKey inp.news).isSome].count true = 0
       then 1 else 0) := by
  refine ⟨by decide, by decide, rfl, ?_⟩
  simp [exitCode, successCount, runMain, degenInputs, updateGoldPrice, goldPrimary, goldFallback,
        updateFedData, combineFed, combineAux, mkFedPoint, realYieldArrayAt, fredSentinelResp,
        List.count_cons]
